import Mathlib

/-!
Shallow embedding of `custom_components/power_watchdog` (coordinator.py,
const.py).  Timestamps and ages are modelled as integers (seconds); the
entity-state source is an explicit `Option EntityState` snapshot; the
asyncio machinery is modelled by an explicit list of created tasks with a
status each, together with the coordinator's `_pending_task` reference
(`pending_idx`).  Side effects (service calls, coordinator data updates,
telegram sends) are recorded in an ordered `Effect` trace.
-/

namespace PowerWatchdog

/-- const.py: `OFFLINE_STATES = {"unavailable", "unknown", "offline"}`. -/
def OFFLINE_STATES : List String := ["unavailable", "unknown", "offline"]

/-- coordinator.py: frozen dataclass `WatchdogData`. -/
structure WatchdogData where
  online : Bool
  watched_entity_id : String
  state : Option String
deriving DecidableEq, Repr

/-- A Home Assistant state object for the watched entity: its state string
and the report time used by `_get_report_time` (`last_reported` falling
back to `last_updated`, collapsed to one field). -/
structure EntityState where
  state : String
  reported_at : Int
deriving DecidableEq, Repr

/-- The coordinator's immutable configuration fields, as read in
`PowerWatchdogCoordinator.__init__`. -/
structure Config where
  voltage_entity_id : String
  stale_timeout : Int
  debounce : Int
  notify_on_start : Bool
  probe_when_offline : Bool
  probe_every : Int
  refresh_every : Int
deriving DecidableEq, Repr

/-- coordinator.py `_is_online`: `None` is offline, otherwise offline
exactly for the sentinel strings in `OFFLINE_STATES`. -/
def is_online : Option String → Bool
  | none => false
  | some s => !(OFFLINE_STATES.contains s)

/-- coordinator.py `_format_duration`: clamp negatives to zero, break into
days/hours/minutes/seconds, emit each nonzero unit (seconds always). -/
def format_duration : Option Int → Option String
  | none => none
  | some seconds =>
    let total : Nat := (max seconds 0).toNat
    let days := total / 86400
    let rem := total % 86400
    let hours := rem / 3600
    let rem2 := rem % 3600
    let minutes := rem2 / 60
    let secs := rem2 % 60
    let parts : List String :=
      (if days ≠ 0 then [toString days ++ "д"] else []) ++
      (if hours ≠ 0 then [toString hours ++ "г"] else []) ++
      (if minutes ≠ 0 then [toString minutes ++ "хв"] else []) ++
      [toString secs ++ "с"]
    some (String.intercalate " " parts)

/-- coordinator.py `_compute_online`: entity missing ⇒ `(False, None, None)`;
otherwise classify the raw value, compute the age of the last report, and
downgrade an apparently-online state to offline when the stale timeout is
enabled and exceeded.  Returns (effective online, raw state, age). -/
def compute_online (cfg : Config) (env : Option EntityState) (now : Int) :
    Bool × Option String × Option Int :=
  match env with
  | none => (false, none, none)
  | some st =>
    let online := is_online (some st.state)
    let age := now - st.reported_at
    if online ∧ cfg.stale_timeout > 0 ∧ age > cfg.stale_timeout then
      (false, some st.state, some age)
    else
      (online, some st.state, some age)

/-- Arguments of one `_debounced_commit_and_notify` task. -/
structure PendingParams where
  new_online : Bool
  reason : String
  old_state : Option String
  new_state : Option String
deriving DecidableEq, Repr

/-- The lifecycle of an asyncio task: `running` (`done()` is false),
`cancelled`, or `completed`. -/
inductive TaskStatus
  | running
  | cancelled
  | completed
deriving DecidableEq, Repr

structure TaskRec where
  params : PendingParams
  status : TaskStatus
deriving DecidableEq, Repr

/-- The coordinator's mutable state: `self.data`, the episode timers, the
probe/refresh rate-limit timestamps, every confirmation task ever created
(with its current status) and `self._pending_task` as an index into that
list. -/
structure CoordState where
  data : Option WatchdogData
  online_since : Option Int
  offline_since : Option Int
  last_probe_ts : Int
  last_refresh_ts : Int
  tasks : List TaskRec
  pending_idx : Option Nat
deriving DecidableEq, Repr

/-- Observable side effects, in program order: the two `update_entity`
service calls (probe and periodic refresh), `async_set_updated_data`, and
`async_send_telegram`. -/
inductive Effect
  | probe
  | refresh
  | set_data (d : WatchdogData)
  | notify (text : String)
deriving DecidableEq, Repr

/-- The guard `self._pending_task and not self._pending_task.done()`. -/
def pending_not_done (s : CoordState) : Bool :=
  match s.pending_idx with
  | none => false
  | some i =>
    match s.tasks[i]? with
    | some t => t.status = TaskStatus.running
    | none => false

/-- The call `self._pending_task.cancel()` guarded as in the source: a pending
task that is not done is cancelled. -/
def cancel_pending (s : CoordState) : CoordState :=
  match s.pending_idx with
  | none => s
  | some i =>
    match s.tasks[i]? with
    | some t =>
      if t.status = TaskStatus.running then
        { s with tasks := s.tasks.set i { t with status := TaskStatus.cancelled } }
      else s
    | none => s

/-- Cancel any not-done pending task, then create the new confirmation task
and point `self._pending_task` at it. -/
def schedule_pending (s : CoordState) (p : PendingParams) : CoordState :=
  let s1 := cancel_pending s
  { s1 with
    tasks := s1.tasks ++ [⟨p, TaskStatus.running⟩],
    pending_idx := some s1.tasks.length }

/-- The `WatchdogData` built by `_sync_data_without_notify`. -/
def mk_data (cfg : Config) (online : Bool) (st : Option String) : WatchdogData :=
  ⟨online, cfg.voltage_entity_id, st⟩

/-- The `Напруга: ... В` line of `_debounced_commit_and_notify` (both of the
source's branches build the same string, so the sentinel test collapses). -/
def voltage_line : Option String → String
  | none => ""
  | some cs => "Напруга: " ++ cs ++ " В\n"

/-- Message body of `_debounced_commit_and_notify`: title by status, the
optional elapsed-duration line, the voltage line (the reason and device
lines are commented out in the source). -/
def commit_text (new_online : Bool) (extra : String) (current_state : Option String) :
    String :=
  let title := if new_online then "✅ Світло є" else "❌ Світло зникло"
  title ++ "\n\n" ++ extra ++ voltage_line current_state

/-- Body of `_debounced_commit_and_notify` after the debounce sleep, acting
on the coordinator state at fire time: re-read the effective status, abort
if it no longer equals the candidate, dedup-sync if it equals the confirmed
status, otherwise commit timers and data and send the notification. -/
def run_commit (cfg : Config) (env : Option EntityState) (now : Int)
    (s : CoordState) (p : PendingParams) : CoordState × List Effect :=
  let r := compute_online cfg env now
  let current_online := r.1
  let current_state := r.2.1
  if current_online ≠ p.new_online then (s, [])
  else
    match s.data with
    | some d =>
      if d.online = p.new_online then
        let d' := mk_data cfg p.new_online current_state
        ({ s with data := some d' }, [Effect.set_data d'])
      else
        let step :=
          if d.online ∧ ¬ p.new_online then
            let online_for := s.online_since.map (fun t0 => now - t0)
            let duration_line := format_duration online_for
            let extra := match duration_line with
              | some dl => "Світло було: " ++ dl ++ "\n"
              | none => ""
            ({ s with offline_since := some now, online_since := none }, extra)
          else
            let offline_for := s.offline_since.map (fun t0 => now - t0)
            let duration_line := format_duration offline_for
            let extra := match duration_line with
              | some dl => "Світла не було: " ++ dl ++ "\n"
              | none => ""
            ({ s with online_since := some now, offline_since := none }, extra)
        let s1 := step.1
        let extra := step.2
        let d' := mk_data cfg p.new_online current_state
        ({ s1 with data := some d' },
         [Effect.set_data d', Effect.notify (commit_text p.new_online extra current_state)])
    | none =>
      let s1 :=
        if p.new_online then
          { s with online_since := some now, offline_since := none }
        else
          { s with offline_since := some now, online_since := none }
      let d' := mk_data cfg p.new_online current_state
      ({ s1 with data := some d' },
       [Effect.set_data d', Effect.notify (commit_text p.new_online "" current_state)])

/-- Firing of the confirmation task at index `i`: only a still-running task
executes its body (a cancelled task observes `CancelledError` at the sleep
and returns); the fired task becomes completed. -/
def fire_task (cfg : Config) (env : Option EntityState) (now : Int)
    (s : CoordState) (i : Nat) : CoordState × List Effect :=
  match s.tasks[i]? with
  | some t =>
    if t.status = TaskStatus.running then
      let s0 := { s with tasks := s.tasks.set i { t with status := TaskStatus.completed } }
      run_commit cfg env now s0 t.params
    else (s, [])
  | none => (s, [])

/-- The `_handle` state-change callback: dedup-sync when the candidate
equals the confirmed status, otherwise cancel any pending confirmation and
schedule a new one with reason `state_change`. -/
def handle_event (cfg : Config) (s : CoordState)
    (old_state new_state : Option String) : CoordState × List Effect :=
  let new_online := is_online new_state
  match s.data with
  | some d =>
    if d.online = new_online then
      let d' := mk_data cfg new_online new_state
      ({ s with data := some d' }, [Effect.set_data d'])
    else
      (schedule_pending s ⟨new_online, "state_change", old_state, new_state⟩, [])
  | none =>
    (schedule_pending s ⟨new_online, "state_change", old_state, new_state⟩, [])

/-- First block of `_periodic_check`: when confirmed offline and probing is
enabled, issue the rate-limited `update_entity` probe, stamping
`_last_probe_ts` before the service call is attempted. -/
def probe_step (cfg : Config) (now : Int) (s : CoordState) :
    CoordState × List Effect :=
  match s.data with
  | some d =>
    if cfg.probe_when_offline ∧ ¬ d.online then
      if now - s.last_probe_ts ≥ cfg.probe_every then
        ({ s with last_probe_ts := now }, [Effect.probe])
      else (s, ([] : List Effect))
    else (s, [])
  | none => (s, [])

/-- Second block of `_periodic_check`: the rate-limited periodic refresh
call, stamping `_last_refresh_ts` before the service call is attempted. -/
def refresh_step (cfg : Config) (now : Int) (s : CoordState) :
    CoordState × List Effect :=
  if cfg.refresh_every > 0 ∧ now - s.last_refresh_ts ≥ cfg.refresh_every then
    ({ s with last_refresh_ts := now }, [Effect.refresh])
  else (s, ([] : List Effect))

/-- Tail of `_periodic_check`: recompute the effective status, return when
no confirmed data exists yet, dedup-sync the raw value when the status is
unchanged, otherwise cancel any pending confirmation and schedule a new one
with the classified reason. -/
def evaluate_step (cfg : Config) (env : Option EntityState) (now : Int)
    (s : CoordState) : CoordState × List Effect :=
  let r := compute_online cfg env now
  let online := r.1
  let state := r.2.1
  let age := r.2.2
  match s.data with
  | none => (s, [])
  | some d =>
    if online = d.online then
      if d.state ≠ state then
        let d' := mk_data cfg online state
        ({ s with data := some d' }, [Effect.set_data d'])
      else (s, [])
    else
      let reason :=
        if online then "probe_recovered"
        else
          match age with
          | some a =>
            if cfg.stale_timeout > 0 ∧ a > cfg.stale_timeout then "stale_timeout"
            else "periodic"
          | none => "periodic"
      (schedule_pending s ⟨online, reason, d.state, state⟩, [])

/-- Whole of `_periodic_check`: rate-limited offline probe, rate-limited refresh,
recompute the effective status, dedup-sync or feed a candidate into the
debounce scheduler with the classified reason. -/
def periodic_check (cfg : Config) (env : Option EntityState) (now : Int)
    (s : CoordState) : CoordState × List Effect :=
  let a := probe_step cfg now s
  let b := refresh_step cfg now a.1
  let c := evaluate_step cfg env now b.1
  (c.1, a.2 ++ b.2 ++ c.2)

/-- Start-up notification text of `async_start`. -/
def start_text (cfg : Config) (online : Bool) (state : Option String)
    (age : Option Int) : String :=
  let title := "🟦 Бот було перезапущено"
  let status := if online then "✅ Зараз: світло є" else "❌ Зараз: світла немає"
  let extra := match age with
    | some a => "Дані оновлювались: " ++ toString a ++ "с тому\n"
    | none => ""
  if online then
    title ++ "\n\n" ++ status ++ "\n" ++ extra ++
      "Пристрій: " ++ cfg.voltage_entity_id ++ "\n" ++ voltage_line state
  else
    title ++ "\n\n" ++ status ++ "\n" ++ "Пристрій: " ++ cfg.voltage_entity_id ++ "\n"

/-- The coordinator state as `__init__` leaves it. -/
def init_state : CoordState :=
  { data := none, online_since := none, offline_since := none,
    last_probe_ts := 0, last_refresh_ts := 0, tasks := [], pending_idx := none }

/-- Model of `async_start` up to the subscription calls: compute the initial
effective status, set exactly one episode timer, publish the initial data,
optionally send the start-up notification. -/
def async_start (cfg : Config) (env : Option EntityState) (now : Int) :
    CoordState × List Effect :=
  let r := compute_online cfg env now
  let online := r.1
  let state := r.2.1
  let age := r.2.2
  let s1 :=
    if online then
      { init_state with online_since := some now, offline_since := none }
    else
      { init_state with offline_since := some now, online_since := none }
  let d := mk_data cfg online state
  let s2 := { s1 with data := some d }
  let effs :=
    if cfg.notify_on_start then
      [Effect.set_data d, Effect.notify (start_text cfg online state age)]
    else
      [Effect.set_data d]
  (s2, effs)

/-! ### Specification-side definitions (for refinement comparison) -/

/-- The duration format as the claim words it, read literally: the
days/hours/minutes/seconds breakdown with only the LEADING zero units
omitted and the seconds component always shown. -/
def duration_leading_omitted (total : Nat) : String :=
  let units : List (Nat × String) :=
    [(total / 86400, "д"), (total % 86400 / 3600, "г"), (total % 86400 % 3600 / 60, "хв")]
  let kept := units.dropWhile (fun u => u.1 == 0)
  String.intercalate " "
    (kept.map (fun u => toString u.1 ++ u.2) ++ [toString (total % 86400 % 3600 % 60) ++ "с"])

/-- The amended wording: ALL zero-valued units among days, hours and
minutes are omitted (not only leading ones); the seconds component is
always shown. -/
def duration_zero_units_omitted (total : Nat) : String :=
  let units : List (Nat × String) :=
    [(total / 86400, "д"), (total % 86400 / 3600, "г"), (total % 86400 % 3600 / 60, "хв")]
  let kept := units.filter (fun u => u.1 ≠ 0)
  String.intercalate " "
    (kept.map (fun u => toString u.1 ++ u.2) ++ [toString (total % 86400 % 3600 % 60) ++ "с"])

/-! ### Invariant predicates -/

/-- Every running confirmation task is the one `self._pending_task` points
at: the code's "at most one outstanding debounce task" invariant. -/
def running_only_pending (s : CoordState) : Prop :=
  ∀ i t, s.tasks[i]? = some t → t.status = TaskStatus.running → s.pending_idx = some i

/-- How many confirmation tasks are currently running (live timers). -/
def running_count (s : CoordState) : Nat :=
  s.tasks.countP (fun t => t.status == TaskStatus.running)

/-- The episode-timer invariant: when confirmed data exists, exactly the
timer matching the confirmed status is set and the other is `None`. -/
def timers_ok (s : CoordState) : Prop :=
  ∀ d, s.data = some d →
    (d.online = true → (∃ t, s.online_since = some t) ∧ s.offline_since = none) ∧
    (d.online = false → (∃ t, s.offline_since = some t) ∧ s.online_since = none)

/-! ### Helper lemmas -/

lemma probe_step_fields (cfg : Config) (now : Int) (s : CoordState) :
    (probe_step cfg now s).1.data = s.data ∧
    (probe_step cfg now s).1.tasks = s.tasks ∧
    (probe_step cfg now s).1.pending_idx = s.pending_idx ∧
    (probe_step cfg now s).1.online_since = s.online_since ∧
    (probe_step cfg now s).1.offline_since = s.offline_since ∧
    (probe_step cfg now s).1.last_refresh_ts = s.last_refresh_ts := by
  unfold probe_step
  split <;> (try split) <;> (try split) <;> simp

lemma refresh_step_fields (cfg : Config) (now : Int) (s : CoordState) :
    (refresh_step cfg now s).1.data = s.data ∧
    (refresh_step cfg now s).1.tasks = s.tasks ∧
    (refresh_step cfg now s).1.pending_idx = s.pending_idx ∧
    (refresh_step cfg now s).1.online_since = s.online_since ∧
    (refresh_step cfg now s).1.offline_since = s.offline_since ∧
    (refresh_step cfg now s).1.last_probe_ts = s.last_probe_ts := by
  unfold refresh_step
  split <;> simp

lemma probe_step_effects (cfg : Config) (now : Int) (s : CoordState) :
    (probe_step cfg now s).2 = [] ∨ (probe_step cfg now s).2 = [Effect.probe] := by
  unfold probe_step
  split <;> (try split) <;> (try split) <;> simp

lemma refresh_step_effects (cfg : Config) (now : Int) (s : CoordState) :
    (refresh_step cfg now s).2 = [] ∨ (refresh_step cfg now s).2 = [Effect.refresh] := by
  unfold refresh_step
  split <;> simp

lemma format_duration_eq_spec (n : Int) (h : 0 ≤ n) :
    format_duration (some n) = some (duration_zero_units_omitted n.toNat) := by
  have hmax : max n 0 = n := max_eq_left h
  simp only [format_duration, duration_zero_units_omitted, hmax]
  by_cases hd : n.toNat / 86400 = 0 <;>
  by_cases hh : n.toNat % 86400 / 3600 = 0 <;>
  by_cases hm : n.toNat % 86400 % 3600 / 60 = 0 <;>
  simp [hd, hh, hm, List.filter_cons, String.intercalate]

lemma evaluate_step_dedup (cfg : Config) (env : Option EntityState) (now : Int)
    (s : CoordState) (d : WatchdogData)
    (hd : s.data = some d)
    (hid : d.watched_entity_id = cfg.voltage_entity_id)
    (hpc : (compute_online cfg env now).1 = d.online) :
    (evaluate_step cfg env now s).1.data =
      some (mk_data cfg d.online (compute_online cfg env now).2.1) ∧
    (evaluate_step cfg env now s).1.tasks = s.tasks ∧
    (evaluate_step cfg env now s).1.pending_idx = s.pending_idx ∧
    ((evaluate_step cfg env now s).2 = [] ∨
      (evaluate_step cfg env now s).2 =
        [Effect.set_data (mk_data cfg d.online (compute_online cfg env now).2.1)]) := by
  unfold evaluate_step
  rw [hd]
  simp only [hpc, if_pos rfl]
  by_cases hst : d.state = (compute_online cfg env now).2.1
  · simp only [hst, ne_eq, not_true_eq_false, if_neg, ite_false]
    refine ⟨?_, rfl, rfl, Or.inl rfl⟩
    cases d with
    | mk o w st => simp_all [mk_data]
  · simp [ne_eq, hst, hpc]

lemma countP_le_one_of_unique {α : Type} (p : α → Bool) (l : List α)
    (h : ∀ (i j : Nat) (a b : α), l[i]? = some a → l[j]? = some b → p a → p b → i = j) :
    l.countP p ≤ 1 := by
  induction l with
  | nil => simp
  | cons x xs ih =>
    by_cases hx : p x
    · have hxs : xs.countP p = 0 := by
        rw [List.countP_eq_zero]
        intro a ha hpa
        obtain ⟨j, hj⟩ := List.getElem?_of_mem ha
        have := h 0 (j + 1) x a (by simp) (by simpa using hj) hx hpa
        omega
      simp [List.countP_cons, hx, hxs]
    · have hxs : xs.countP p ≤ 1 := by
        refine ih (fun i j a b hi hj hpa hpb => ?_)
        have := h (i + 1) (j + 1) a b (by simpa using hi) (by simpa using hj) hpa hpb
        omega
      simp [List.countP_cons, hx]
      omega

lemma running_count_le_one (s : CoordState) (h : running_only_pending s) :
    running_count s ≤ 1 := by
  refine countP_le_one_of_unique _ _ (fun i j a b hi hj hpa hpb => ?_)
  have ha : a.status = TaskStatus.running := by simpa using hpa
  have hb : b.status = TaskStatus.running := by simpa using hpb
  have h1 := h i a hi ha
  have h2 := h j b hj hb
  rw [h1] at h2
  exact Option.some_inj.mp h2

lemma cancel_no_running (s : CoordState) (h : running_only_pending s) :
    ∀ (j : Nat) (t : TaskRec), (cancel_pending s).tasks[j]? = some t →
      t.status ≠ TaskStatus.running := by
  intro j t hj hr
  cases hpi : s.pending_idx with
  | none =>
    have hce : cancel_pending s = s := by simp [cancel_pending, hpi]
    rw [hce] at hj
    have := h j t hj hr
    rw [hpi] at this
    exact Option.noConfusion this
  | some i =>
    cases hti : s.tasks[i]? with
    | none =>
      have hce : cancel_pending s = s := by simp [cancel_pending, hpi, hti]
      rw [hce] at hj
      have := h j t hj hr
      rw [hpi] at this
      have hij : i = j := Option.some_inj.mp this
      rw [hij, hj] at hti
      exact Option.noConfusion hti
    | some ti =>
      by_cases hrun : ti.status = TaskStatus.running
      · have hce : (cancel_pending s).tasks =
            s.tasks.set i { ti with status := TaskStatus.cancelled } := by
          simp [cancel_pending, hpi, hti, hrun]
        rw [hce] at hj
        by_cases hij : i = j
        · subst hij
          have hlen : i < s.tasks.length := (List.getElem?_eq_some_iff.mp hti).1
          rw [List.getElem?_set_self (by simpa using hlen)] at hj
          have := Option.some_inj.mp hj
          rw [← this] at hr
          exact TaskStatus.noConfusion hr
        · rw [List.getElem?_set_ne hij] at hj
          have := h j t hj hr
          rw [hpi] at this
          exact hij (Option.some_inj.mp this)
      · have hce : cancel_pending s = s := by simp [cancel_pending, hpi, hti, hrun]
        rw [hce] at hj
        have := h j t hj hr
        rw [hpi] at this
        have hij : i = j := Option.some_inj.mp this
        rw [hij, hj] at hti
        have := Option.some_inj.mp hti
        rw [this] at hr
        exact hrun hr

lemma schedule_pending_tasks (s : CoordState) (p : PendingParams) :
    (schedule_pending s p).tasks =
      (cancel_pending s).tasks ++ [⟨p, TaskStatus.running⟩] := by
  simp [schedule_pending]

lemma schedule_pending_idx (s : CoordState) (p : PendingParams) :
    (schedule_pending s p).pending_idx = some (cancel_pending s).tasks.length := by
  simp [schedule_pending]

lemma schedule_pending_inv (s : CoordState) (p : PendingParams)
    (h : running_only_pending s) :
    running_only_pending (schedule_pending s p) ∧
    running_count (schedule_pending s p) ≤ 1 := by
  have hnr := cancel_no_running s h
  constructor
  · intro j t hj hr
    rw [schedule_pending_tasks] at hj
    rw [schedule_pending_idx]
    by_cases hlt : j < (cancel_pending s).tasks.length
    · rw [List.getElem?_append_left hlt] at hj
      exact absurd hr (hnr j t hj)
    · by_cases he : j = (cancel_pending s).tasks.length
      · rw [he]
      · rw [List.getElem?_append_right (by omega)] at hj
        rw [List.getElem?_eq_none (by simp; omega)] at hj
        exact Option.noConfusion hj
  · unfold running_count
    rw [schedule_pending_tasks, List.countP_append]
    have hz : (cancel_pending s).tasks.countP
        (fun t => t.status == TaskStatus.running) = 0 := by
      rw [List.countP_eq_zero]
      intro a ha hpa
      obtain ⟨j, hj⟩ := List.getElem?_of_mem ha
      exact hnr j a hj (by simpa using hpa)
    rw [hz]
    simp

lemma running_only_pending_congr (s s' : CoordState)
    (ht : s'.tasks = s.tasks) (hp : s'.pending_idx = s.pending_idx)
    (h : running_only_pending s) : running_only_pending s' := by
  intro i t hi hr
  rw [ht] at hi
  rw [hp]
  exact h i t hi hr

lemma evaluate_step_inv (cfg : Config) (env : Option EntityState) (now : Int)
    (s : CoordState) (h : running_only_pending s) :
    running_only_pending (evaluate_step cfg env now s).1 ∧
    running_count (evaluate_step cfg env now s).1 ≤ 1 := by
  unfold evaluate_step
  split
  · exact ⟨h, running_count_le_one s h⟩
  · dsimp only
    split
    · split
      · exact ⟨h, running_count_le_one s h⟩
      · exact ⟨h, running_count_le_one s h⟩
    · exact schedule_pending_inv s _ h

lemma cancel_pending_fields (s : CoordState) :
    (cancel_pending s).data = s.data ∧
    (cancel_pending s).online_since = s.online_since ∧
    (cancel_pending s).offline_since = s.offline_since ∧
    (cancel_pending s).last_probe_ts = s.last_probe_ts ∧
    (cancel_pending s).last_refresh_ts = s.last_refresh_ts := by
  unfold cancel_pending
  split <;> (try split) <;> (try split) <;> simp

lemma schedule_pending_fields (s : CoordState) (p : PendingParams) :
    (schedule_pending s p).data = s.data ∧
    (schedule_pending s p).online_since = s.online_since ∧
    (schedule_pending s p).offline_since = s.offline_since ∧
    (schedule_pending s p).last_probe_ts = s.last_probe_ts ∧
    (schedule_pending s p).last_refresh_ts = s.last_refresh_ts := by
  have hc := cancel_pending_fields s
  unfold schedule_pending
  exact hc

lemma timers_ok_congr (s s' : CoordState)
    (hd : s'.data = s.data) (ho : s'.online_since = s.online_since)
    (hf : s'.offline_since = s.offline_since) (h : timers_ok s) : timers_ok s' := by
  intro d hdd
  rw [hd] at hdd
  rw [ho, hf]
  exact h d hdd

lemma run_commit_timers (cfg : Config) (env : Option EntityState) (now : Int)
    (s : CoordState) (p : PendingParams) (h : timers_ok s) :
    timers_ok (run_commit cfg env now s p).1 := by
  by_cases habort : (compute_online cfg env now).1 ≠ p.new_online
  · have heq : (run_commit cfg env now s p).1 = s := by
      simp [run_commit, habort]
    rw [heq]
    exact h
  · push_neg at habort
    cases hsd : s.data with
    | none =>
      cases hpn : p.new_online <;>
        simp [run_commit, habort, hsd, hpn, timers_ok, mk_data]
    | some d =>
      by_cases hde : d.online = p.new_online
      · have heq : (run_commit cfg env now s p).1 =
            { s with data := some (mk_data cfg p.new_online (compute_online cfg env now).2.1) } := by
          simp [run_commit, habort, hsd, hde]
        rw [heq]
        intro dd hdd
        have hdd' : dd = mk_data cfg p.new_online (compute_online cfg env now).2.1 :=
          (Option.some_inj.mp hdd).symm
        subst hdd'
        have := h d hsd
        simp only [mk_data] at *
        rw [← hde] at *
        exact this
      · cases hdo : d.online <;> cases hpn : p.new_online <;>
          rw [hdo, hpn] at hde <;> (try simp at hde) <;>
          simp [run_commit, habort, hsd, hdo, hpn, timers_ok, mk_data]

lemma evaluate_step_timers (cfg : Config) (env : Option EntityState) (now : Int)
    (s : CoordState) (h : timers_ok s) :
    timers_ok (evaluate_step cfg env now s).1 := by
  unfold evaluate_step
  split
  · exact h
  · dsimp only
    split
    · split
      · rename_i d hsd hc hst
        intro dd hdd
        have hdd' : dd = mk_data cfg (compute_online cfg env now).1 (compute_online cfg env now).2.1 :=
          (Option.some_inj.mp hdd).symm
        subst hdd'
        have := h d hsd
        simp only [mk_data] at *
        rw [hc] at *
        exact this
      · exact h
    · refine timers_ok_congr _ _ ?_ ?_ ?_ h
      · exact (schedule_pending_fields s _).1
      · exact (schedule_pending_fields s _).2.1
      · exact (schedule_pending_fields s _).2.2.1

lemma fire_task_timers (cfg : Config) (env : Option EntityState) (now : Int)
    (s : CoordState) (i : Nat) (h : timers_ok s) :
    timers_ok (fire_task cfg env now s i).1 := by
  unfold fire_task
  split
  · split
    · refine run_commit_timers cfg env now _ _ ?_
      exact timers_ok_congr _ _ rfl rfl rfl h
    · exact h
  · exact h

lemma periodic_check_state (cfg : Config) (env : Option EntityState) (now : Int)
    (s : CoordState) :
    (periodic_check cfg env now s).1 =
      (evaluate_step cfg env now
        (refresh_step cfg now (probe_step cfg now s).1).1).1 := rfl

lemma periodic_check_eff (cfg : Config) (env : Option EntityState) (now : Int)
    (s : CoordState) :
    (periodic_check cfg env now s).2 =
      (probe_step cfg now s).2 ++
      (refresh_step cfg now (probe_step cfg now s).1).2 ++
      (evaluate_step cfg env now
        (refresh_step cfg now (probe_step cfg now s).1).1).2 := rfl

lemma probe_step_stamp (cfg : Config) (now : Int) (s : CoordState) (d : WatchdogData)
    (hd : s.data = some d) (hoff : d.online = false)
    (hpw : cfg.probe_when_offline = true)
    (hdue : now - s.last_probe_ts ≥ cfg.probe_every) :
    (probe_step cfg now s).1.last_probe_ts = now ∧
    (probe_step cfg now s).2 = [Effect.probe] := by
  simp [probe_step, hd, hoff, hpw, hdue]

lemma probe_step_eff_empty (cfg : Config) (now : Int) (s : CoordState)
    (hnd : ¬ now - s.last_probe_ts ≥ cfg.probe_every) :
    (probe_step cfg now s).2 = [] := by
  unfold probe_step
  split <;> (try split) <;> (try split) <;> simp_all

lemma evaluate_step_no_probe (cfg : Config) (env : Option EntityState) (now : Int)
    (s : CoordState) :
    Effect.probe ∉ (evaluate_step cfg env now s).2 ∧
    (evaluate_step cfg env now s).1.last_probe_ts = s.last_probe_ts := by
  unfold evaluate_step
  split
  · simp
  · dsimp only
    split
    · split <;> simp
    · refine ⟨by simp, (schedule_pending_fields _ _).2.2.2.1⟩

lemma run_commit_no_probe (cfg : Config) (env : Option EntityState) (now : Int)
    (s : CoordState) (p : PendingParams) :
    Effect.probe ∉ (run_commit cfg env now s p).2 := by
  by_cases habort : (compute_online cfg env now).1 ≠ p.new_online
  · simp [run_commit, habort]
  · push_neg at habort
    cases hsd : s.data with
    | none =>
      cases hpn : p.new_online <;>
        simp [run_commit, habort, hsd, hpn]
    | some d =>
      by_cases hde : d.online = p.new_online
      · simp [run_commit, habort, hsd, hde]
      · cases hdo : d.online <;> cases hpn : p.new_online <;>
          rw [hdo, hpn] at hde <;> (try simp at hde) <;>
          simp [run_commit, habort, hsd, hdo, hpn]

/-! ### Concrete states for the witnesses -/

def wcfg : Config := ⟨"sensor.voltage", 120, 10, true, true, 20, 0⟩

def wdata_on : WatchdogData := ⟨true, "sensor.voltage", some "230"⟩

def wdata_off : WatchdogData := ⟨false, "sensor.voltage", some "unavailable"⟩

def wtask : TaskRec :=
  ⟨⟨true, "state_change", some "unavailable", some "230"⟩, TaskStatus.running⟩

/-- A coordinator state confirmed online with one running confirmation task. -/
def ws1 : CoordState := ⟨some wdata_on, some 40, none, 0, 0, [wtask], some 0⟩

/-- A coordinator state confirmed offline with no tasks. -/
def ws2 : CoordState := ⟨some wdata_off, none, some 40, 0, 0, [], none⟩

/-! ### Claim theorems -/

/-- C1: when a debounced confirmation task fires and the re-read effective
status no longer equals its candidate status, the task returns without
mutating the coordinator data or the episode timers and without sending any
notification (flap suppression: a candidate that reverted before the window
elapsed produces zero notifications and zero side effects). -/
theorem claim_C1_debounce_abort (cfg : Config) (env : Option EntityState) (now : Int)
    (s : CoordState) (i : Nat) (t : TaskRec)
    (ht : s.tasks[i]? = some t)
    (hrun : t.status = TaskStatus.running)
    (hne : (compute_online cfg env now).1 ≠ t.params.new_online) :
    (fire_task cfg env now s i).1.data = s.data ∧
    (fire_task cfg env now s i).1.online_since = s.online_since ∧
    (fire_task cfg env now s i).1.offline_since = s.offline_since ∧
    (fire_task cfg env now s i).1.last_probe_ts = s.last_probe_ts ∧
    (fire_task cfg env now s i).1.last_refresh_ts = s.last_refresh_ts ∧
    (fire_task cfg env now s i).2 = [] := by
  simp only [fire_task, run_commit]
  rw [ht]
  simp [hrun, hne]

/-- Witness for C1: a running task with candidate Online fires while the
entity is gone (effective Offline) and aborts with no effects. -/
theorem claim_C1_witness :
    (fire_task wcfg none 100 ws1 0).1.data = ws1.data ∧
    (fire_task wcfg none 100 ws1 0).1.online_since = ws1.online_since ∧
    (fire_task wcfg none 100 ws1 0).1.offline_since = ws1.offline_since ∧
    (fire_task wcfg none 100 ws1 0).1.last_probe_ts = ws1.last_probe_ts ∧
    (fire_task wcfg none 100 ws1 0).1.last_refresh_ts = ws1.last_refresh_ts ∧
    (fire_task wcfg none 100 ws1 0).2 = [] :=
  claim_C1_debounce_abort wcfg none 100 ws1 0 wtask (by decide) (by decide) (by decide)

/-- C3: when the entity exists, the effective status equals the raw
classification, except that an apparently-online reading whose report age
exceeds a positive staleness timeout is downgraded to Offline. -/
theorem claim_C3_staleness_override (cfg : Config) (st : EntityState) (now : Int) :
    (compute_online cfg (some st) now).1 =
      if is_online (some st.state) ∧ cfg.stale_timeout > 0 ∧
          now - st.reported_at > cfg.stale_timeout
      then false else is_online (some st.state) := by
  simp only [compute_online]
  split <;> simp_all

/-- C4: the classifier is total and returns Offline exactly when the value
is absent or one of the configured offline sentinels, Online for every
other value. -/
theorem claim_C4_classifier (v : Option String) :
    (is_online v = false ↔ v = none ∨ ∃ s, v = some s ∧ s ∈ OFFLINE_STATES) ∧
    (∀ s, v = some s → s ∉ OFFLINE_STATES → is_online v = true) := by
  constructor
  · cases v with
    | none => simp [is_online]
    | some s => simp [is_online]
  · intro s hv hs
    subst hv
    simp [is_online, hs]

/-- C9: the empty string is classified Online — it is present and not an
offline sentinel. -/
theorem claim_C9_empty_string_online :
    is_online (some "") = true ∧ "" ∉ OFFLINE_STATES := by decide

/-- C2: both scheduling paths — the state-change handler and the periodic
check — cancel any prior not-done confirmation task before creating a new
one, so the "every running task is the referenced pending task" invariant
is preserved and at most one confirmation timer is ever live. -/
theorem claim_C2_single_pending (cfg : Config) (env : Option EntityState) (now : Int)
    (s : CoordState) (old_st new_st : Option String)
    (h : running_only_pending s) :
    running_only_pending (handle_event cfg s old_st new_st).1 ∧
    running_count (handle_event cfg s old_st new_st).1 ≤ 1 ∧
    running_only_pending (periodic_check cfg env now s).1 ∧
    running_count (periodic_check cfg env now s).1 ≤ 1 := by
  have hhe : running_only_pending (handle_event cfg s old_st new_st).1 ∧
      running_count (handle_event cfg s old_st new_st).1 ≤ 1 := by
    unfold handle_event
    split
    · dsimp only
      split
      · exact ⟨h, running_count_le_one s h⟩
      · exact schedule_pending_inv s _ h
    · exact schedule_pending_inv s _ h
  have pf := probe_step_fields cfg now s
  have rf := refresh_step_fields cfg now (probe_step cfg now s).1
  have hb : running_only_pending (refresh_step cfg now (probe_step cfg now s).1).1 := by
    refine running_only_pending_congr _ _ ?_ ?_ h
    · rw [rf.2.1, pf.2.1]
    · rw [rf.2.2.1, pf.2.2.1]
  have hpc : running_only_pending (periodic_check cfg env now s).1 ∧
      running_count (periodic_check cfg env now s).1 ≤ 1 := by
    rw [periodic_check_state]
    exact evaluate_step_inv cfg env now _ hb
  exact ⟨hhe.1, hhe.2, hpc.1, hpc.2⟩

/-- Witness for C2: both paths applied to a state with one running task. -/
theorem claim_C2_witness :
    running_only_pending (handle_event wcfg ws1 (some "230") (some "unavailable")).1 ∧
    running_count (handle_event wcfg ws1 (some "230") (some "unavailable")).1 ≤ 1 ∧
    running_only_pending (periodic_check wcfg (some ⟨"230", 95⟩) 100 ws1).1 ∧
    running_count (periodic_check wcfg (some ⟨"230", 95⟩) 100 ws1).1 ≤ 1 :=
  claim_C2_single_pending wcfg (some ⟨"230", 95⟩) 100 ws1 (some "230") (some "unavailable")
    (by
      intro i t hi hr
      cases i with
      | zero => rfl
      | succ n => simp [ws1] at hi)

/-- C5: when the observed candidate status equals the confirmed status, the
event path and the periodic path start no confirmation task and send no
notification, but the cached raw value is refreshed with the confirmed
status field unchanged. -/
theorem claim_C5_dedup_refresh (cfg : Config) (env : Option EntityState) (now : Int)
    (s : CoordState) (old_st new_st : Option String) (d : WatchdogData)
    (hd : s.data = some d)
    (hid : d.watched_entity_id = cfg.voltage_entity_id)
    (hev : is_online new_st = d.online)
    (hpc : (compute_online cfg env now).1 = d.online) :
    (handle_event cfg s old_st new_st).1.data = some (mk_data cfg d.online new_st) ∧
    (handle_event cfg s old_st new_st).1.tasks = s.tasks ∧
    (handle_event cfg s old_st new_st).1.pending_idx = s.pending_idx ∧
    (∀ text, Effect.notify text ∉ (handle_event cfg s old_st new_st).2) ∧
    (periodic_check cfg env now s).1.data =
      some (mk_data cfg d.online (compute_online cfg env now).2.1) ∧
    (periodic_check cfg env now s).1.tasks = s.tasks ∧
    (periodic_check cfg env now s).1.pending_idx = s.pending_idx ∧
    (∀ text, Effect.notify text ∉ (periodic_check cfg env now s).2) := by
  have pf := probe_step_fields cfg now s
  have rf := refresh_step_fields cfg now (probe_step cfg now s).1
  have hdb : (refresh_step cfg now (probe_step cfg now s).1).1.data = some d := by
    rw [rf.1, pf.1, hd]
  have ev := evaluate_step_dedup cfg env now
    (refresh_step cfg now (probe_step cfg now s).1).1 d hdb hid hpc
  have pe := probe_step_effects cfg now s
  have re := refresh_step_effects cfg now (probe_step cfg now s).1
  refine ⟨?_, ?_, ?_, ?_, ?_, ?_, ?_, ?_⟩
  · simp [handle_event, hd, hev]
  · simp [handle_event, hd, hev]
  · simp [handle_event, hd, hev]
  · intro text
    simp [handle_event, hd, hev]
  · rw [periodic_check_state]
    exact ev.1
  · rw [periodic_check_state, ev.2.1, rf.2.1, pf.2.1]
  · rw [periodic_check_state, ev.2.2.1, rf.2.2.1, pf.2.2.1]
  · intro text
    rw [periodic_check_eff]
    simp only [List.mem_append]
    rcases pe with h1 | h1 <;> rcases re with h2 | h2 <;>
      rcases ev.2.2.2 with h3 | h3 <;> simp [h1, h2, h3]

/-- Witness for C5: a raw-value change from "230" to "231" while confirmed
online refreshes the cached value and sends nothing. -/
theorem claim_C5_witness :
    (handle_event wcfg ws1 (some "230") (some "231")).1.data =
      some (mk_data wcfg wdata_on.online (some "231")) ∧
    (handle_event wcfg ws1 (some "230") (some "231")).1.tasks = ws1.tasks ∧
    (handle_event wcfg ws1 (some "230") (some "231")).1.pending_idx = ws1.pending_idx ∧
    (∀ text, Effect.notify text ∉ (handle_event wcfg ws1 (some "230") (some "231")).2) ∧
    (periodic_check wcfg (some ⟨"231", 95⟩) 100 ws1).1.data =
      some (mk_data wcfg wdata_on.online
        (compute_online wcfg (some ⟨"231", 95⟩) 100).2.1) ∧
    (periodic_check wcfg (some ⟨"231", 95⟩) 100 ws1).1.tasks = ws1.tasks ∧
    (periodic_check wcfg (some ⟨"231", 95⟩) 100 ws1).1.pending_idx = ws1.pending_idx ∧
    (∀ text, Effect.notify text ∉ (periodic_check wcfg (some ⟨"231", 95⟩) 100 ws1).2) :=
  claim_C5_dedup_refresh wcfg (some ⟨"231", 95⟩) 100 ws1 (some "230") (some "231")
    wdata_on (by decide) (by decide) (by decide) (by decide)

/-- C6: startup sets exactly the episode timer matching the computed status
(and confirmed data exists from then on), and every operation — the event
handler, the periodic check and a confirmation-task firing — preserves the
invariant that exactly the timer matching the confirmed status is set and
the other is cleared. -/
theorem claim_C6_episode_timers (cfg : Config) (env : Option EntityState) (now : Int)
    (s : CoordState) (old_st new_st : Option String) (i : Nat)
    (h : timers_ok s) :
    timers_ok (async_start cfg env now).1 ∧
    ((async_start cfg env now).1.data).isSome = true ∧
    timers_ok (handle_event cfg s old_st new_st).1 ∧
    timers_ok (periodic_check cfg env now s).1 ∧
    timers_ok (fire_task cfg env now s i).1 := by
  refine ⟨?_, ?_, ?_, ?_, fire_task_timers cfg env now s i h⟩
  · cases hon : (compute_online cfg env now).1 <;>
      simp [async_start, init_state, hon, timers_ok, mk_data]
  · cases hon : (compute_online cfg env now).1 <;>
      simp [async_start, init_state, hon]
  · unfold handle_event
    split
    · dsimp only
      split
      · rename_i d hsd hc
        intro dd hdd
        have hdd' : dd = mk_data cfg (is_online new_st) new_st :=
          (Option.some_inj.mp hdd).symm
        subst hdd'
        have := h d hsd
        simp only [mk_data] at *
        rw [← hc] at *
        exact this
      · refine timers_ok_congr _ _ ?_ ?_ ?_ h
        · exact (schedule_pending_fields s _).1
        · exact (schedule_pending_fields s _).2.1
        · exact (schedule_pending_fields s _).2.2.1
    · refine timers_ok_congr _ _ ?_ ?_ ?_ h
      · exact (schedule_pending_fields s _).1
      · exact (schedule_pending_fields s _).2.1
      · exact (schedule_pending_fields s _).2.2.1
  · have pf := probe_step_fields cfg now s
    have rf := refresh_step_fields cfg now (probe_step cfg now s).1
    have hb : timers_ok (refresh_step cfg now (probe_step cfg now s).1).1 := by
      refine timers_ok_congr _ _ ?_ ?_ ?_ h
      · rw [rf.1, pf.1]
      · rw [rf.2.2.2.1, pf.2.2.2.1]
      · rw [rf.2.2.2.2.1, pf.2.2.2.2.1]
    rw [periodic_check_state]
    exact evaluate_step_timers cfg env now _ hb

/-- Witness for C6: all four operations applied to a confirmed-online state
whose online timer is set. -/
theorem claim_C6_witness :
    timers_ok (async_start wcfg (some ⟨"231", 95⟩) 100).1 ∧
    ((async_start wcfg (some ⟨"231", 95⟩) 100).1.data).isSome = true ∧
    timers_ok (handle_event wcfg ws1 (some "230") (some "unavailable")).1 ∧
    timers_ok (periodic_check wcfg (some ⟨"231", 95⟩) 100 ws1).1 ∧
    timers_ok (fire_task wcfg (some ⟨"231", 95⟩) 100 ws1 0).1 :=
  claim_C6_episode_timers wcfg (some ⟨"231", 95⟩) 100 ws1 (some "230")
    (some "unavailable") 0
    (by
      intro d hd
      have hd' : d = wdata_on := (Option.some_inj.mp hd).symm
      subst hd'
      refine ⟨fun _ => ⟨⟨40, rfl⟩, rfl⟩, fun habs => ?_⟩
      exact absurd habs (by decide))

/-- C7, counterexample: at 3605 seconds (one hour, zero minutes, five
seconds) the code omits the zero minutes unit, which is not a leading zero
unit, so the output is not the claimed leading-zeros-omitted breakdown. -/
theorem claim_C7_counterexample :
    format_duration (some 3605) = some "1г 5с" ∧
    duration_leading_omitted 3605 = "1г 0хв 5с" ∧
    format_duration (some 3605) ≠ some (duration_leading_omitted 3605) := by decide

/-- C7, amended: the elapsed duration of a confirmed transition is computed
as `now` minus the previous status's since-timestamp and formatted as the
days/hours/minutes/seconds breakdown omitting ALL zero-valued units among
days, hours and minutes (not only leading ones), seconds always shown. -/
theorem claim_C7_duration_amended (cfg : Config) (env : Option EntityState) (now : Int)
    (s : CoordState) (p : PendingParams) (d : WatchdogData) (t0 : Int) (n : Int)
    (h0 : 0 ≤ n)
    (hd : s.data = some d)
    (hcur : (compute_online cfg env now).1 = p.new_online)
    (hne : d.online ≠ p.new_online)
    (hsince : (if d.online = true then s.online_since else s.offline_since) = some t0)
    (ht0 : t0 ≤ now) :
    format_duration (some n) = some (duration_zero_units_omitted n.toNat) ∧
    (run_commit cfg env now s p).2 =
      [Effect.set_data (mk_data cfg p.new_online (compute_online cfg env now).2.1),
       Effect.notify (commit_text p.new_online
         ((if d.online = true then "Світло було: " else "Світла не було: ") ++
           duration_zero_units_omitted (now - t0).toNat ++ "\n")
         (compute_online cfg env now).2.1)] := by
  have hfd : format_duration (some (now - t0)) =
      some (duration_zero_units_omitted (now - t0).toNat) :=
    format_duration_eq_spec (now - t0) (by omega)
  refine ⟨format_duration_eq_spec n h0, ?_⟩
  cases hdo : d.online <;> cases hpn : p.new_online <;>
    simp [hdo, hpn] at hne hsince ⊢ <;>
    simp [run_commit, hd, hcur, hdo, hpn, hsince, hfd, mk_data]

/-- Witness for C7: a confirmed online → offline commit after 60 seconds
online, plus the format identity at 3605 seconds. -/
theorem claim_C7_witness :
    format_duration (some (3605 : Int)) =
      some (duration_zero_units_omitted (3605 : Int).toNat) ∧
    (run_commit wcfg (some ⟨"unavailable", 98⟩) 100 ws1
        ⟨false, "state_change", some "230", some "unavailable"⟩).2 =
      [Effect.set_data (mk_data wcfg false
         (compute_online wcfg (some ⟨"unavailable", 98⟩) 100).2.1),
       Effect.notify (commit_text false
         ((if wdata_on.online = true then "Світло було: " else "Світла не було: ") ++
           duration_zero_units_omitted ((100 : Int) - 40).toNat ++ "\n")
         (compute_online wcfg (some ⟨"unavailable", 98⟩) 100).2.1)] :=
  claim_C7_duration_amended wcfg (some ⟨"unavailable", 98⟩) 100 ws1
    ⟨false, "state_change", some "230", some "unavailable"⟩ wdata_on 40 3605
    (by decide) (by decide) (by decide) (by decide) (by decide) (by decide)

/-- C8: in a confirmed-transition commit the coordinator data update
strictly precedes the notification send in the effect order, and the
returned state already carries the new confirmed data and episode timers —
the send is the final step, so a notifier failure cannot roll back or
prevent the transition's local bookkeeping. -/
theorem claim_C8_commit_before_notify (cfg : Config) (env : Option EntityState)
    (now : Int) (s : CoordState) (p : PendingParams) (d : WatchdogData)
    (hd : s.data = some d)
    (hcur : (compute_online cfg env now).1 = p.new_online)
    (hne : d.online ≠ p.new_online) :
    ∃ d' text,
      (run_commit cfg env now s p).2 = [Effect.set_data d', Effect.notify text] ∧
      (run_commit cfg env now s p).1.data = some d' ∧
      d'.online = p.new_online ∧
      (if p.new_online = true
        then (run_commit cfg env now s p).1.online_since = some now ∧
             (run_commit cfg env now s p).1.offline_since = none
        else (run_commit cfg env now s p).1.offline_since = some now ∧
             (run_commit cfg env now s p).1.online_since = none) := by
  refine ⟨mk_data cfg p.new_online (compute_online cfg env now).2.1, ?_⟩
  cases hdo : d.online <;> cases hpn : p.new_online <;>
    simp [hdo, hpn] at hne ⊢ <;>
    simp [run_commit, hd, hcur, hdo, hpn, mk_data]

/-- Witness for C8: the same online → offline commit; the data write is
first in the effect trace and the state is committed. -/
theorem claim_C8_witness :
    ∃ d' text,
      (run_commit wcfg (some ⟨"unavailable", 98⟩) 100 ws1
          ⟨false, "state_change", some "230", some "unavailable"⟩).2 =
        [Effect.set_data d', Effect.notify text] ∧
      (run_commit wcfg (some ⟨"unavailable", 98⟩) 100 ws1
          ⟨false, "state_change", some "230", some "unavailable"⟩).1.data = some d' ∧
      d'.online = false ∧
      (if (false : Bool) = true
        then (run_commit wcfg (some ⟨"unavailable", 98⟩) 100 ws1
                ⟨false, "state_change", some "230", some "unavailable"⟩).1.online_since =
              some 100 ∧
             (run_commit wcfg (some ⟨"unavailable", 98⟩) 100 ws1
                ⟨false, "state_change", some "230", some "unavailable"⟩).1.offline_since =
              none
        else (run_commit wcfg (some ⟨"unavailable", 98⟩) 100 ws1
                ⟨false, "state_change", some "230", some "unavailable"⟩).1.offline_since =
              some 100 ∧
             (run_commit wcfg (some ⟨"unavailable", 98⟩) 100 ws1
                ⟨false, "state_change", some "230", some "unavailable"⟩).1.online_since =
              none) :=
  claim_C8_commit_before_notify wcfg (some ⟨"unavailable", 98⟩) 100 ws1
    ⟨false, "state_change", some "230", some "unavailable"⟩ wdata_on
    (by decide) (by decide) (by decide)

/-- C10: a due probe attempt stamps `_last_probe_ts = now` in the same step
that issues the (fallible, exception-swallowed) probe call, so a following
periodic check within the probe interval issues no probe — and no other
operation ever issues one. -/
theorem claim_C10_probe_rate_limit (cfg : Config) (env env2 : Option EntityState)
    (now now2 : Int) (s : CoordState) (d : WatchdogData)
    (hd : s.data = some d) (hoff : d.online = false)
    (hpw : cfg.probe_when_offline = true)
    (hdue : now - s.last_probe_ts ≥ cfg.probe_every)
    (hsoon : now2 - now < cfg.probe_every) :
    Effect.probe ∈ (periodic_check cfg env now s).2 ∧
    (periodic_check cfg env now s).1.last_probe_ts = now ∧
    Effect.probe ∉ (periodic_check cfg env2 now2 (periodic_check cfg env now s).1).2 ∧
    (∀ (s' : CoordState) (o n : Option String),
      Effect.probe ∉ (handle_event cfg s' o n).2) ∧
    (∀ (s' : CoordState) (j : Nat),
      Effect.probe ∉ (fire_task cfg env2 now2 s' j).2) := by
  have hstamp := probe_step_stamp cfg now s d hd hoff hpw hdue
  have rf := refresh_step_fields cfg now (probe_step cfg now s).1
  have hev := evaluate_step_no_probe cfg env now
    (refresh_step cfg now (probe_step cfg now s).1).1
  have hts : (periodic_check cfg env now s).1.last_probe_ts = now := by
    rw [periodic_check_state, hev.2, rf.2.2.2.2.2, hstamp.1]
  refine ⟨?_, hts, ?_, ?_, ?_⟩
  · rw [periodic_check_eff, hstamp.2]
    simp
  · have hnd : ¬ now2 - (periodic_check cfg env now s).1.last_probe_ts ≥
        cfg.probe_every := by
      rw [hts]
      omega
    have hpe := probe_step_eff_empty cfg now2 (periodic_check cfg env now s).1 hnd
    have rf2 := refresh_step_effects cfg now2
      (probe_step cfg now2 (periodic_check cfg env now s).1).1
    have hev2 := evaluate_step_no_probe cfg env2 now2
      (refresh_step cfg now2
        (probe_step cfg now2 (periodic_check cfg env now s).1).1).1
    rw [periodic_check_eff, hpe]
    rcases rf2 with h2 | h2 <;> rw [h2] <;> simp_all
  · intro s' o n
    unfold handle_event
    split
    · dsimp only
      split <;> simp
    · simp
  · intro s' j
    unfold fire_task
    split
    · split
      · exact run_commit_no_probe cfg env2 now2 _ _
      · simp
    · simp

/-- Witness for C10: confirmed offline, probe due at t=100, next check at
t=110 within the 20 s interval issues no probe. -/
theorem claim_C10_witness :
    Effect.probe ∈ (periodic_check wcfg (some ⟨"unavailable", 98⟩) 100 ws2).2 ∧
    (periodic_check wcfg (some ⟨"unavailable", 98⟩) 100 ws2).1.last_probe_ts = 100 ∧
    Effect.probe ∉ (periodic_check wcfg (some ⟨"unavailable", 108⟩) 110
      (periodic_check wcfg (some ⟨"unavailable", 98⟩) 100 ws2).1).2 ∧
    (∀ (s' : CoordState) (o n : Option String),
      Effect.probe ∉ (handle_event wcfg s' o n).2) ∧
    (∀ (s' : CoordState) (j : Nat),
      Effect.probe ∉ (fire_task wcfg (some ⟨"unavailable", 108⟩) 110 s' j).2) :=
  claim_C10_probe_rate_limit wcfg (some ⟨"unavailable", 98⟩)
    (some ⟨"unavailable", 108⟩) 100 110 ws2 wdata_off
    (by decide) (by decide) (by decide) (by decide) (by decide)

end PowerWatchdog
